import Mathlib

/-!
Shallow embedding of `a4crypt.py` (oz123/pyrite): a command-line wrapper
around a gpg/gpg2 subprocess for symmetric encryption and decryption.

The effectful Python code is modelled as pure functions that return, next
to their result, a trace of the operating-system-visible events they
perform (pipe creation, fd writes, fd closes, subprocess spawns, writes to
the diagnostic stream).  The external gpg subprocess is a parameter: a
function from (argument vector, data delivered on stdin) to
(exit code, stdout, stderr).

String literals follow the source; single-quote characters that appear
inside a few Python message strings are elided.
-/

namespace A4crypt

/-- Truthiness of a Python value of type `str`-or-`None`, as used by
`if in_file:` etc.: `None` and the empty string are falsy. -/
def optTruthy : Option String → Bool
  | none => false
  | some s => s ≠ ""

/-- The Python value passed as `binarymode`.  `pyBool b` stands for the
values equal to `True`/`False` (which pass the `binarymode not in
{True, False}` check); `pyOther` stands for any other value. -/
inductive PyBool where
  | pyBool (b : Bool)
  | pyOther
deriving DecidableEq, Repr

/-- Truthiness of a `PyBool` in a Python `if`.  `pyOther` never reaches a
truthiness test in the source (validation rejects it first); we let it be
truthy, standing for a generic truthy non-boolean. -/
def PyBool.truthy : PyBool → Bool
  | .pyBool b => b
  | .pyOther => true

/-- Predicate `charsPrefixOf n h`: the character list `n` is an initial
segment of `h`. -/
def charsPrefixOf : List Char → List Char → Bool
  | [], _ => true
  | _ :: _, [] => false
  | a :: as, b :: bs => a == b && charsPrefixOf as bs

/-- Predicate `charsInfixOf n h`: `n` occurs contiguously inside `h`. -/
def charsInfixOf (needle : List Char) : List Char → Bool
  | [] => needle.isEmpty
  | b :: bs => charsPrefixOf needle (b :: bs) || charsInfixOf needle bs

/-- Python `needle in hay` for strings: substring containment.  Used to
model `mode in "en"` / `mode in "de"`. -/
def pyInStr (needle hay : String) : Bool :=
  charsInfixOf needle.toList hay.toList

/-- Splitting a character list into maximal space-free nonempty runs. -/
def wsTokensC : List Char → List (List Char)
  | [] => []
  | [c] => if c = ' ' then [] else [[c]]
  | c :: d :: cs =>
    if c = ' ' then wsTokensC (d :: cs)
    else if d = ' ' then [c] :: wsTokensC cs
    else
      match wsTokensC (d :: cs) with
      | [] => [[c]]
      | t :: ts => (c :: t) :: ts

/-- The call `shlex.split` as used in the source: all command strings are
built without quote characters, on which `shlex.split` is plain splitting
on whitespace runs (the strings built here use only spaces). -/
def shlexSplit (s : String) : List String :=
  (wsTokensC s.data).map (fun t => String.mk t)

/-- Python string slicing `s[:-n]`: drop the last `n` characters (used for
`cmd = cmd[:-2]`, source line 155). -/
def pyDropRight (s : String) (n : Nat) : String :=
  String.mk (s.data.take (s.data.length - n))

/-- The mutable attributes of a `GpgInterface` object that `launch_gpg`
reads or writes: `self.gpg`, `self.inputdata`, `self.stdout`,
`self.stderr`. -/
structure GpgState where
  gpg : String
  inputdata : Option String
  stdout : Option String
  stderr : Option String
  gpgupper : String
deriving DecidableEq, Repr

/-- Operating-system-visible events performed by `launch_gpg`. -/
inductive Event where
  /-- The call `os.pipe()` returning `(fd_in, fd_out)`. -/
  | pipeCreate (fdIn fdOut : Nat)
  /-- The call `os.write(fd, data)`. -/
  | fdWrite (fd : Nat) (data : String)
  /-- The call `os.close(fd)`. -/
  | fdClose (fd : Nat)
  /-- The call `Popen(argv, ...)`; `stdinPipe` records whether a stdin
  pipe is attached (`stdin=PIPE`). -/
  | spawn (argv : List String) (stdinPipe : Bool)
  /-- The call `sys.stderr.write(s)`. -/
  | stderrWrite (s : String)
deriving DecidableEq, Repr

/-- The external gpg subprocess: argument vector and the data delivered on
its stdin pipe (`none` when no stdin pipe is attached) to
(exit code, stdout, stderr). -/
def Engine : Type := List String → Option String → Int × String × String

/-- The base encryption command string of `launch_gpg` (source line
146-148), including the trailing ASCII-armor option `-a`. -/
def encCmdBase (gpg cipher : String) (fdIn : Nat) : String :=
  gpg ++ " --batch --no-tty --yes --symmetric --force-mdc --cipher-algo "
      ++ cipher ++ " --passphrase-fd " ++ toString fdIn ++ " -a"

/-- The base decryption command string of `launch_gpg` (source line
163-164). -/
def decCmdBase (gpg : String) (fdIn : Nat) : String :=
  gpg ++ " --batch --no-tty --yes -d --passphrase-fd " ++ toString fdIn

/-- The command string `cmd` built by `launch_gpg` after validation
(source lines 142-169).  `none` models the (unreachable after validation)
fall-through where Python would leave `cmd` unbound. -/
def buildCmd (gpg mode : String) (in_file out_file : Option String)
    (binarymode : PyBool) (cipher : String) (fdIn : Nat) : Option String :=
  if pyInStr mode "en" then
    let base := encCmdBase gpg cipher fdIn
    if optTruthy in_file then
      -- Removes the last two chars of cmd, the trailing armor option
      let base := if binarymode.truthy then pyDropRight base 2 else base
      some (base ++ " -o " ++ out_file.getD "" ++ " " ++ in_file.getD "")
    else some base
  else if pyInStr mode "de" then
    let base := decCmdBase gpg fdIn
    if optTruthy in_file then
      some (base ++ " -o " ++ out_file.getD "" ++ " " ++ in_file.getD "")
    else some base
  else none

/-- Method `GpgInterface.launch_gpg` (source lines 85-191).  `engine` stands for
the spawned subprocess; `fdIn`, `fdOut` are the descriptors that
`os.pipe()` returns in this call.  The result is the event trace paired
with either the exception message raised or the updated object state and
the returned boolean. -/
def launch_gpg (engine : Engine) (fdIn fdOut : Nat) (st : GpgState)
    (mode passphrase : String) (in_file out_file : Option String)
    (binarymode : PyBool) (cipher : String) :
    List Event × Except String (GpgState × Bool) :=
  -- Sanity checking of arguments and input
  if mode ≠ "en" ∧ mode ≠ "de" then
    ([.stderrWrite "Improper mode specified! Must be one of en or de.\n"],
     .error "Bad mode chosen")
  else if optTruthy in_file ∧ ¬ optTruthy out_file then
    ([.stderrWrite ("You specified " ++ in_file.getD "" ++ " as an input file but you didnt specify an output file.\n")],
     .error "Missing out_file")
  else if optTruthy in_file ∧ in_file = out_file then
    ([.stderrWrite "Same file for both input and output, eh? Is it going to work? NOPE. Chuck Testa.\n"],
     .error "in_file, out_file must be different")
  else if ¬ optTruthy in_file ∧ ¬ optTruthy st.inputdata then
    ([.stderrWrite "You need to save input to class attr inputdata first. Or specify an input file.\n"],
     .error "Missing input")
  else if binarymode = .pyOther then
    ([.stderrWrite "Improper binarymode value specified! Must be either True or False (default: False).\n"],
     .error "Bad binarymode chosen")
  else
    -- Write our passphrase to an os file descriptor
    let ev0 : List Event :=
      [.pipeCreate fdIn fdOut, .fdWrite fdOut passphrase, .fdClose fdOut]
    -- Set our encryption/decryption command
    match buildCmd st.gpg mode in_file out_file binarymode cipher fdIn with
    | none => (ev0, .error "NameError: cmd")   -- unreachable after validation
    | some cmd =>
      let argv := shlexSplit cmd
      let stdinPipe := !optTruthy in_file
      -- Kick it off and save output for later
      let (rc, sout, serr) := engine argv (if stdinPipe then st.inputdata else none)
      let st' := { st with stdout := some sout, stderr := some serr }
      -- How did it go?
      let retval := rc == 0
      -- Close fd, print stderr, return process output
      (ev0 ++ [.spawn argv stdinPipe, .fdClose fdIn, .stderrWrite serr],
       .ok (st', retval))

/-- Events performed by `GpgInterface.__init__`. -/
inductive InitEvent where
  /-- An attempt to start `Popen(argv, stdout=PIPE)` probing a binary. -/
  | probeAttempt (argv : List String)
  /-- The call `sys.stderr.write(s)`. -/
  | stderrWrite (s : String)
deriving DecidableEq, Repr

/-- A model of the operating system starting a probe subprocess:
`probe argv` is `some versionText` when the binary can be started and
produces `versionText` on stdout, and `none` when `Popen` raises
(binary missing or not executable). -/
def Probe : Type := List String → Option String

/-- Method `GpgInterface.__init__` (source lines 56-82).  Returns the
event trace and `some` constructed state, or `none` when the exception is
re-raised because neither binary could be started. -/
def GpgInterface.mkInit (probe : Probe) (show_version : Bool) :
    List InitEvent × Option GpgState :=
  let finish (ev : List InitEvent) (gpg gpgvers : String) :
      List InitEvent × Option GpgState :=
    let ev := ev ++ (if show_version then [InitEvent.stderrWrite (gpgvers ++ "\n")] else [])
    (ev, some { gpg, inputdata := none, stdout := none, stderr := none,
                gpgupper := ((gpg.take 4).toUpper).trim })
  match probe ["gpg", "--version"] with
  | some gpgvers =>
    finish [InitEvent.probeAttempt ["gpg", "--version"]] "gpg --no-use-agent" gpgvers
  | none =>
    match probe ["gpg2", "--version"] with
    | some gpgvers =>
      finish [InitEvent.probeAttempt ["gpg", "--version"],
              InitEvent.probeAttempt ["gpg2", "--version"]] "gpg2" gpgvers
    | none =>
      ([InitEvent.probeAttempt ["gpg", "--version"],
        InitEvent.probeAttempt ["gpg2", "--version"],
        InitEvent.stderrWrite "This program requires either gpg or gpg2, neither of which were found on your system.\n\n"],
       none)

/-- Method `AFourCrypt.get_passphrase` (source lines 256-272), with the
sequence of values the user enters at the `getpass` prompts made explicit
as `inputs`.  The first branch is the inner `while len(pwd1) == 0`
re-prompt loop; the final recursive call is the outer `while True` loop
after a mismatch.  Returns `none` when the entries run out (the real
program would keep blocking at a prompt). -/
def get_passphrase (confirm : Bool) : List String → Option String
  | [] => none
  | pwd1 :: rest =>
    if pwd1 = "" then get_passphrase confirm rest
    else if confirm = false then some pwd1
    else
      match rest with
      | [] => none
      | pwd2 :: rest2 =>
        if pwd1 = pwd2 then some pwd1
        else get_passphrase confirm rest2

/-- Helper for `get_multiline_input`: the entered lines up to and
including the first occurrence of the sentinel line `EOFstr`, or `none`
when no sentinel line ever arrives (the real program would keep blocking
at the prompt). -/
def takeThroughSentinel (EOFstr : String) : List String → Option (List String)
  | [] => none
  | x :: xs =>
    if x = EOFstr then some [x]
    else (takeThroughSentinel EOFstr xs).map (fun l => x :: l)

/-- Method `AFourCrypt.get_multiline_input` (source lines 241-253), with
the sequence of lines the user enters at the `raw_input` prompts made
explicit as `lines`. -/
def get_multiline_input (EOFstr : String) (keeplastline : Bool)
    (lines : List String) : Option String :=
  (takeThroughSentinel EOFstr lines).map
    (fun l => String.intercalate "\n" (if keeplastline then l else l.dropLast))

/-- The encryption-input collection of `AFourCrypt.load_main` (source
line 316): sentinel `;;;`, sentinel line excluded (default
`keeplastline=False`). -/
def collectEncryptInput (lines : List String) : Option String :=
  get_multiline_input ";;;" false lines

/-- The decryption-input collection of `AFourCrypt.load_main` (source
lines 342-343): sentinel `-----END PGP MESSAGE-----`, sentinel line kept
(`keeplastline=True`). -/
def collectDecryptInput (lines : List String) : Option String :=
  get_multiline_input "-----END PGP MESSAGE-----" true lines

/-- The conjunction of the five validation checks at the top of
`launch_gpg` (source lines 113-136): the request passes validation
exactly when this is `true`. -/
def validRequest (st : GpgState) (mode : String) (in_file out_file : Option String)
    (binarymode : PyBool) : Bool :=
  (mode == "en" || mode == "de") &&
  !(optTruthy in_file && !optTruthy out_file) &&
  !(optTruthy in_file && in_file == out_file) &&
  !(!optTruthy in_file && !optTruthy st.inputdata) &&
  !(binarymode == PyBool.pyOther)

/-- The data `P.communicate(input=self.inputdata)` delivers to the
subprocess stdin: `self.inputdata` when a stdin pipe is attached (no
input file), nothing otherwise. -/
def stdinData (st : GpgState) (in_file : Option String) : Option String :=
  if !optTruthy in_file then st.inputdata else none

/-- The subprocess spawns recorded in a trace: argument vector and
whether a stdin pipe was attached. -/
def spawnArgs : List Event → List (List String × Bool) :=
  List.filterMap (fun e => match e with
    | .spawn argv sp => some (argv, sp)
    | _ => none)

/-- The file-descriptor writes recorded in a trace: descriptor and data. -/
def writtenData : List Event → List (Nat × String) :=
  List.filterMap (fun e => match e with
    | .fdWrite fd d => some (fd, d)
    | _ => none)

/-- A trace with the data of every fd write blanked out: two runs with
equal scrubbed traces differ at most in what was written into pipes. -/
def scrubWrites : List Event → List Event :=
  List.map (fun e => match e with
    | .fdWrite fd _ => .fdWrite fd ""
    | e => e)

/-- A sane command-line token: nonempty, no spaces, not starting with a
dash (so it cannot collide with an engine flag). -/
def saneToken (s : String) : Bool :=
  match s.data with
  | [] => false
  | c :: cs => c ≠ '-' && (c :: cs).all (fun d => d ≠ ' ')

/-- An engine whose exit code and output streams are fixed, used to
instantiate theorems at concrete inputs. -/
def constEngine (rc : Int) (sout serr : String) : Engine :=
  fun _ _ => (rc, sout, serr)

/-- A concrete post-`__init__` object state with inline input stored. -/
def sampleState : GpgState :=
  { gpg := "gpg --no-use-agent", inputdata := some "hello world",
    stdout := none, stderr := none, gpgupper := "GPG" }

/-- A probe on which only `gpg` starts, reporting version text `1.4.11`. -/
def probeGpgA : Probe :=
  fun argv => if argv = ["gpg", "--version"] then some "gpg (GnuPG) 1.4.11" else none

/-- A probe on which only `gpg` starts, reporting version text `9.9.9`. -/
def probeGpgB : Probe :=
  fun argv => if argv = ["gpg", "--version"] then some "gpg (GnuPG) 9.9.9" else none

/-- A probe on which only `gpg2` starts. -/
def probeOnlyGpg2 : Probe :=
  fun argv => if argv = ["gpg2", "--version"] then some "gpg (GnuPG) 2.0.17" else none

/-- A probe on which no binary starts. -/
def probeNeither : Probe := fun _ => none

/-! ### Tokenizer lemmas -/

theorem wsTokensC_space_cons (xs : List Char) :
    wsTokensC (' ' :: xs) = wsTokensC xs := by
  cases xs with
  | nil => simp [wsTokensC]
  | cons d cs => simp [wsTokensC]

theorem wsTokensC_cons_ne (c : Char) (cs : List Char) (hc : c ≠ ' ') :
    ∃ t ts, wsTokensC (c :: cs) = t :: ts := by
  induction cs generalizing c with
  | nil => exact ⟨[c], [], by simp [wsTokensC, hc]⟩
  | cons d cs ih =>
    by_cases hd : d = ' '
    · subst hd
      exact ⟨[c], wsTokensC cs, by simp [wsTokensC, hc]⟩
    · obtain ⟨t, ts, ht⟩ := ih d hd
      exact ⟨c :: t, ts, by simp [wsTokensC, hc, hd, ht]⟩

theorem wsTokensC_append (a b : List Char) :
    wsTokensC (a ++ ' ' :: b) = wsTokensC a ++ wsTokensC b := by
  induction a with
  | nil => simp [wsTokensC_space_cons, wsTokensC]
  | cons c as ih =>
    by_cases hc : c = ' '
    · subst hc
      rw [List.cons_append, wsTokensC_space_cons, wsTokensC_space_cons, ih]
    · cases as with
      | nil =>
        simp [wsTokensC, hc]
      | cons d as' =>
        by_cases hd : d = ' '
        · subst hd
          have h1 : wsTokensC (' ' :: (as' ++ ' ' :: b)) = wsTokensC (as' ++ ' ' :: b) :=
            wsTokensC_space_cons _
          have h2 : wsTokensC (as' ++ ' ' :: b) = wsTokensC as' ++ wsTokensC b := by
            have := ih
            rw [List.cons_append, wsTokensC_space_cons, wsTokensC_space_cons] at this
            exact this
          simp [wsTokensC, hc, h2]
        · obtain ⟨t, ts, ht⟩ := wsTokensC_cons_ne d as' hd
          have h2 : wsTokensC (d :: (as' ++ ' ' :: b)) = (t :: ts) ++ wsTokensC b := by
            have := ih
            rw [List.cons_append] at this
            rw [this, ht]
          simp only [List.cons_append]
          simp [wsTokensC, hc, hd, h2, ht]

theorem wsTokensC_no_space (s : List Char) (h1 : s ≠ []) (h2 : ∀ c ∈ s, c ≠ ' ') :
    wsTokensC s = [s] := by
  induction s with
  | nil => simp at h1
  | cons c cs ih =>
    have hc : c ≠ ' ' := h2 c (by simp)
    cases cs with
    | nil => simp [wsTokensC, hc]
    | cons d cs' =>
      have hd : d ≠ ' ' := h2 d (by simp)
      have hrec := ih (by simp) (fun x hx => h2 x (by simp [hx]))
      simp [wsTokensC, hc, hd, hrec]

theorem shlexSplit_sep (a b : String) :
    shlexSplit (a ++ (" " ++ b)) = shlexSplit a ++ shlexSplit b := by
  unfold shlexSplit
  have h : (a ++ (" " ++ b)).data = a.data ++ ' ' :: b.data := by
    rw [String.data_append, String.data_append]
    rfl
  rw [h, wsTokensC_append, List.map_append]

theorem shlexSplit_sep_left (a b : String) :
    shlexSplit (a ++ " " ++ b) = shlexSplit a ++ shlexSplit b := by
  rw [String.append_assoc]
  exact shlexSplit_sep a b

theorem shlexSplit_empty : shlexSplit "" = [] := rfl

theorem shlexSplit_trailing_space (a : String) :
    shlexSplit (a ++ " ") = shlexSplit a := by
  have h : a ++ " " = a ++ (" " ++ "") := by rw [String.append_empty]
  rw [h, shlexSplit_sep, shlexSplit_empty, List.append_nil]

theorem shlexSplit_no_space (s : String) (h1 : s.data ≠ [])
    (h2 : ∀ c ∈ s.data, c ≠ ' ') : shlexSplit s = [s] := by
  unfold shlexSplit
  rw [wsTokensC_no_space s.data h1 h2]
  rfl

theorem digitChar_ne_space (n : Nat) : Nat.digitChar n ≠ ' ' := by
  by_cases h : n < 16
  · interval_cases n <;> decide
  · have h16 : Nat.digitChar n = '*' := by
      unfold Nat.digitChar
      repeat rw [if_neg (by omega)]
    rw [h16]
    decide

theorem digitChar_ne_dash (n : Nat) : Nat.digitChar n ≠ '-' := by
  by_cases h : n < 16
  · interval_cases n <;> decide
  · have h16 : Nat.digitChar n = '*' := by
      unfold Nat.digitChar
      repeat rw [if_neg (by omega)]
    rw [h16]
    decide

theorem toDigitsCore_chars (b f : Nat) :
    ∀ (n : Nat) (ds : List Char) (c : Char), c ∈ Nat.toDigitsCore b f n ds →
      c ∈ ds ∨ ∃ m, c = Nat.digitChar m := by
  induction f with
  | zero =>
    intro n ds c hc
    simp only [Nat.toDigitsCore] at hc
    exact Or.inl hc
  | succ f ih =>
    intro n ds c hc
    simp only [Nat.toDigitsCore] at hc
    split at hc
    · rcases List.mem_cons.mp hc with h | h
      · exact Or.inr ⟨n % b, h⟩
      · exact Or.inl h
    · rcases ih (n / b) (Nat.digitChar (n % b) :: ds) c hc with h | h
      · rcases List.mem_cons.mp h with h' | h'
        · exact Or.inr ⟨n % b, h'⟩
        · exact Or.inl h'
      · exact Or.inr h

theorem toDigitsCore_suffix (b f : Nat) :
    ∀ (n : Nat) (ds : List Char), ∃ pre, Nat.toDigitsCore b f n ds = pre ++ ds := by
  induction f with
  | zero =>
    intro n ds
    exact ⟨[], by simp only [Nat.toDigitsCore]; rfl⟩
  | succ f ih =>
    intro n ds
    simp only [Nat.toDigitsCore]
    split
    · exact ⟨[Nat.digitChar (n % b)], rfl⟩
    · obtain ⟨pre, hpre⟩ := ih (n / b) (Nat.digitChar (n % b) :: ds)
      exact ⟨pre ++ [Nat.digitChar (n % b)], by rw [hpre]; simp⟩

theorem toString_nat_data (n : Nat) :
    (toString n).data = Nat.toDigitsCore 10 (n + 1) n [] := rfl

theorem toString_nat_chars (n : Nat) :
    ∀ c ∈ (toString n).data, ∃ m, c = Nat.digitChar m := by
  intro c hc
  rw [toString_nat_data] at hc
  rcases toDigitsCore_chars 10 (n + 1) n [] c hc with h | h
  · simp at h
  · exact h

theorem toString_nat_ne_nil (n : Nat) : (toString n).data ≠ [] := by
  rw [toString_nat_data]
  simp only [Nat.toDigitsCore]
  split
  · simp
  · obtain ⟨pre, hpre⟩ := toDigitsCore_suffix 10 n (n / 10) [Nat.digitChar (n % 10)]
    rw [hpre]
    simp

theorem shlexSplit_toString_nat (n : Nat) : shlexSplit (toString n) = [toString n] :=
  shlexSplit_no_space _ (toString_nat_ne_nil n)
    (fun c hc => by
      obtain ⟨m, rfl⟩ := toString_nat_chars n c hc
      exact digitChar_ne_space m)

theorem toString_nat_no_dash (n : Nat) : ∀ c ∈ (toString n).data, c ≠ '-' :=
  fun c hc => by
    obtain ⟨m, rfl⟩ := toString_nat_chars n c hc
    exact digitChar_ne_dash m

theorem pyDropRight_two (s : String) : pyDropRight (s ++ " -a") 2 = s ++ " " := by
  apply String.ext
  show (s ++ " -a").data.take ((s ++ " -a").data.length - 2) = (s ++ " ").data
  rw [String.data_append, String.data_append]
  have h1 : (" -a" : String).data = [' ', '-', 'a'] := rfl
  have h2 : (" " : String).data = [' '] := rfl
  rw [h1, h2]
  have h3 : (s.data ++ [' ', '-', 'a']).length - 2 = s.data.length + 1 := by
    simp
  rw [h3]
  have h4 := @List.take_append _ s.data [' ', '-', 'a'] 1
  simpa using h4


theorem shlexSplit_encCmdBase (gpg cipher : String) (fd : Nat) :
    shlexSplit (encCmdBase gpg cipher fd) =
      shlexSplit gpg ++
        ["--batch", "--no-tty", "--yes", "--symmetric", "--force-mdc", "--cipher-algo"] ++
        shlexSplit cipher ++ ["--passphrase-fd", toString fd, "-a"] := by
  have hA : (" --batch --no-tty --yes --symmetric --force-mdc --cipher-algo " : String)
      = " " ++ "--batch --no-tty --yes --symmetric --force-mdc --cipher-algo" ++ " " := by decide
  have hB : (" --passphrase-fd " : String) = " " ++ "--passphrase-fd" ++ " " := by decide
  have hC : (" -a" : String) = " " ++ "-a" := by decide
  have hS1 : shlexSplit "--batch --no-tty --yes --symmetric --force-mdc --cipher-algo"
      = ["--batch", "--no-tty", "--yes", "--symmetric", "--force-mdc", "--cipher-algo"] := by decide
  have hP : shlexSplit "--passphrase-fd" = ["--passphrase-fd"] := by decide
  have ha : shlexSplit "-a" = ["-a"] := by decide
  unfold encCmdBase
  rw [hA, hB, hC]
  simp only [← String.append_assoc]
  rw [shlexSplit_sep_left, shlexSplit_sep_left, shlexSplit_sep_left, shlexSplit_sep_left,
      shlexSplit_sep_left]
  rw [hS1, hP, ha, shlexSplit_toString_nat]
  simp [List.append_assoc]


theorem shlexSplit_encCmdDrop (gpg cipher : String) (fd : Nat) :
    shlexSplit (pyDropRight (encCmdBase gpg cipher fd) 2) =
      shlexSplit gpg ++
        ["--batch", "--no-tty", "--yes", "--symmetric", "--force-mdc", "--cipher-algo"] ++
        shlexSplit cipher ++ ["--passphrase-fd", toString fd] := by
  have hA : (" --batch --no-tty --yes --symmetric --force-mdc --cipher-algo " : String)
      = " " ++ "--batch --no-tty --yes --symmetric --force-mdc --cipher-algo" ++ " " := by decide
  have hB : (" --passphrase-fd " : String) = " " ++ "--passphrase-fd" ++ " " := by decide
  have hS1 : shlexSplit "--batch --no-tty --yes --symmetric --force-mdc --cipher-algo"
      = ["--batch", "--no-tty", "--yes", "--symmetric", "--force-mdc", "--cipher-algo"] := by decide
  have hP : shlexSplit "--passphrase-fd" = ["--passphrase-fd"] := by decide
  rw [show encCmdBase gpg cipher fd
        = (gpg ++ " --batch --no-tty --yes --symmetric --force-mdc --cipher-algo "
            ++ cipher ++ " --passphrase-fd " ++ toString fd) ++ " -a" from rfl,
      pyDropRight_two, shlexSplit_trailing_space]
  rw [hA, hB]
  simp only [← String.append_assoc]
  rw [shlexSplit_sep_left, shlexSplit_sep_left, shlexSplit_sep_left, shlexSplit_sep_left]
  rw [hS1, hP, shlexSplit_toString_nat]
  simp [List.append_assoc]

theorem shlexSplit_decCmdBase (gpg : String) (fd : Nat) :
    shlexSplit (decCmdBase gpg fd) =
      shlexSplit gpg ++ ["--batch", "--no-tty", "--yes", "-d", "--passphrase-fd"]
        ++ [toString fd] := by
  have hM : (" --batch --no-tty --yes -d --passphrase-fd " : String)
      = " " ++ "--batch --no-tty --yes -d --passphrase-fd" ++ " " := by decide
  have hS : shlexSplit "--batch --no-tty --yes -d --passphrase-fd"
      = ["--batch", "--no-tty", "--yes", "-d", "--passphrase-fd"] := by decide
  unfold decCmdBase
  rw [hM]
  simp only [← String.append_assoc]
  rw [shlexSplit_sep_left, shlexSplit_sep_left]
  rw [hS, shlexSplit_toString_nat]

theorem shlexSplit_fileSuffix (base fout fin : String) :
    shlexSplit (base ++ " -o " ++ fout ++ " " ++ fin) =
      shlexSplit base ++ ["-o"] ++ shlexSplit fout ++ shlexSplit fin := by
  have hO : (" -o " : String) = " " ++ "-o" ++ " " := by decide
  have ho : shlexSplit "-o" = ["-o"] := by decide
  rw [hO]
  simp only [← String.append_assoc]
  rw [shlexSplit_sep_left, shlexSplit_sep_left, shlexSplit_sep_left]
  rw [ho]

theorem shlexSplit_gpgAgent : shlexSplit "gpg --no-use-agent" = ["gpg", "--no-use-agent"] := by
  decide

theorem shlexSplit_gpgTwo : shlexSplit "gpg2" = ["gpg2"] := by decide


theorem buildCmd_some_of_valid (st : GpgState) (mode : String)
    (in_file out_file : Option String) (binarymode : PyBool) (cipher : String) (fdIn : Nat)
    (hv : validRequest st mode in_file out_file binarymode = true) :
    ∃ cmd, buildCmd st.gpg mode in_file out_file binarymode cipher fdIn = some cmd := by
  simp only [validRequest, Bool.and_eq_true, Bool.or_eq_true, beq_iff_eq] at hv
  rcases hv.1.1.1.1 with h | h <;> subst h <;>
    simp only [buildCmd] <;>
    by_cases hin : optTruthy in_file <;>
    simp [hin, (by decide : pyInStr "en" "en" = true),
          (by decide : pyInStr "de" "en" = false),
          (by decide : pyInStr "de" "de" = true)]

theorem launch_gpg_eq_of_valid (engine : Engine) (fdIn fdOut : Nat) (st : GpgState)
    (mode passphrase : String) (in_file out_file : Option String)
    (binarymode : PyBool) (cipher : String) (cmd : String)
    (hv : validRequest st mode in_file out_file binarymode = true)
    (hcmd : buildCmd st.gpg mode in_file out_file binarymode cipher fdIn = some cmd) :
    launch_gpg engine fdIn fdOut st mode passphrase in_file out_file binarymode cipher =
      ([.pipeCreate fdIn fdOut, .fdWrite fdOut passphrase, .fdClose fdOut,
        .spawn (shlexSplit cmd) (!optTruthy in_file), .fdClose fdIn,
        .stderrWrite (engine (shlexSplit cmd) (stdinData st in_file)).2.2],
       .ok ({ st with stdout := some (engine (shlexSplit cmd) (stdinData st in_file)).2.1,
                      stderr := some (engine (shlexSplit cmd) (stdinData st in_file)).2.2 },
            (engine (shlexSplit cmd) (stdinData st in_file)).1 == 0)) := by
  simp only [validRequest, Bool.and_eq_true, Bool.not_eq_eq_eq_not, Bool.or_eq_true,
             beq_iff_eq] at hv
  obtain ⟨⟨⟨⟨hA, hB⟩, hC⟩, hD⟩, hE⟩ := hv
  rw [Bool.not_true] at hB hC hD hE
  have c2 : ¬(optTruthy in_file = true ∧ ¬(optTruthy out_file = true)) := by
    rintro ⟨h1, h2⟩
    rw [h1, Bool.true_and, Bool.not_eq_false'] at hB
    exact h2 hB
  have c3 : ¬(optTruthy in_file = true ∧ in_file = out_file) := by
    rintro ⟨h1, h2⟩
    rw [h1, Bool.true_and, beq_eq_false_iff_ne] at hC
    exact hC h2
  have c4 : ¬(¬(optTruthy in_file = true) ∧ ¬(optTruthy st.inputdata = true)) := by
    rintro ⟨h1, h2⟩
    rw [Bool.not_eq_true] at h1
    rw [h1] at hD
    simp only [Bool.not_false, Bool.true_and, Bool.not_eq_false'] at hD
    exact h2 hD
  have c5 : ¬(binarymode = PyBool.pyOther) := by
    simpa [beq_eq_false_iff_ne] using hE
  have c1 : ¬(mode ≠ "en" ∧ mode ≠ "de") := by
    rcases hA with h | h <;> simp [h]
  simp only [launch_gpg]
  rw [if_neg c1, if_neg c2, if_neg c3, if_neg c4, if_neg c5, hcmd]
  rfl


theorem launch_gpg_shape (engine : Engine) (fdIn fdOut : Nat) (st : GpgState)
    (mode passphrase : String) (in_file out_file : Option String)
    (binarymode : PyBool) (cipher : String)
    (hv : validRequest st mode in_file out_file binarymode = true) :
    ∃ cmd, buildCmd st.gpg mode in_file out_file binarymode cipher fdIn = some cmd ∧
      launch_gpg engine fdIn fdOut st mode passphrase in_file out_file binarymode cipher =
        ([.pipeCreate fdIn fdOut, .fdWrite fdOut passphrase, .fdClose fdOut,
          .spawn (shlexSplit cmd) (!optTruthy in_file), .fdClose fdIn,
          .stderrWrite (engine (shlexSplit cmd) (stdinData st in_file)).2.2],
         .ok ({ st with stdout := some (engine (shlexSplit cmd) (stdinData st in_file)).2.1,
                        stderr := some (engine (shlexSplit cmd) (stdinData st in_file)).2.2 },
              (engine (shlexSplit cmd) (stdinData st in_file)).1 == 0)) := by
  obtain ⟨cmd, hcmd⟩ := buildCmd_some_of_valid st mode in_file out_file binarymode cipher fdIn hv
  exact ⟨cmd, hcmd, launch_gpg_eq_of_valid engine fdIn fdOut st mode passphrase in_file
    out_file binarymode cipher cmd hv hcmd⟩

theorem saneToken_data (s : String) (h : saneToken s = true) :
    ∃ c cs, s.data = c :: cs ∧ c ≠ '-' ∧ ∀ d ∈ s.data, d ≠ ' ' := by
  unfold saneToken at h
  rcases hs : s.data with _ | ⟨c, cs⟩
  · rw [hs] at h; simp at h
  · rw [hs] at h
    simp only [Bool.and_eq_true, List.all_eq_true, decide_eq_true_eq] at h
    exact ⟨c, cs, rfl, h.1, h.2⟩

theorem saneToken_shlexSplit (s : String) (h : saneToken s = true) :
    shlexSplit s = [s] := by
  obtain ⟨c, cs, hdata, _, hns⟩ := saneToken_data s h
  exact shlexSplit_no_space s (by rw [hdata]; simp) hns

theorem saneToken_ne_flag (s t : String) (h : saneToken s = true)
    (ht : ∃ u, t.data = '-' :: u) : s ≠ t := by
  obtain ⟨u, hu⟩ := ht
  obtain ⟨c, cs, hdata, hc, _⟩ := saneToken_data s h
  intro he
  rw [he, hu] at hdata
  exact hc (List.head_eq_of_cons_eq hdata.symm)

theorem toString_nat_ne_flag (n : Nat) (t : String) (ht : '-' ∈ t.data) :
    toString n ≠ t := by
  intro h
  exact toString_nat_no_dash n '-' (h ▸ ht) rfl

theorem buildCmd_argv_fd (gpg mode : String) (in_file out_file : Option String)
    (bm : PyBool) (cipher : String) (fd : Nat) (cmd : String)
    (hcmd : buildCmd gpg mode in_file out_file bm cipher fd = some cmd) :
    ∃ l r, shlexSplit cmd = l ++ "--passphrase-fd" :: toString fd :: r := by
  unfold buildCmd at hcmd
  split at hcmd
  · split at hcmd
    · simp only [Option.some.injEq] at hcmd
      subst hcmd
      by_cases hbm : bm.truthy
      · rw [if_pos hbm, shlexSplit_fileSuffix, shlexSplit_encCmdDrop]
        exact ⟨shlexSplit gpg ++
          ["--batch", "--no-tty", "--yes", "--symmetric", "--force-mdc", "--cipher-algo"] ++
          shlexSplit cipher,
          ["-o"] ++ shlexSplit (out_file.getD "") ++ shlexSplit (in_file.getD ""),
          by simp⟩
      · rw [if_neg hbm, shlexSplit_fileSuffix, shlexSplit_encCmdBase]
        exact ⟨shlexSplit gpg ++
          ["--batch", "--no-tty", "--yes", "--symmetric", "--force-mdc", "--cipher-algo"] ++
          shlexSplit cipher,
          ["-a", "-o"] ++ shlexSplit (out_file.getD "") ++ shlexSplit (in_file.getD ""),
          by simp⟩
    · simp only [Option.some.injEq] at hcmd
      subst hcmd
      rw [shlexSplit_encCmdBase]
      exact ⟨shlexSplit gpg ++
        ["--batch", "--no-tty", "--yes", "--symmetric", "--force-mdc", "--cipher-algo"] ++
        shlexSplit cipher, ["-a"], by simp⟩
  · split at hcmd
    · split at hcmd
      · simp only [Option.some.injEq] at hcmd
        subst hcmd
        rw [shlexSplit_fileSuffix, shlexSplit_decCmdBase]
        exact ⟨shlexSplit gpg ++ ["--batch", "--no-tty", "--yes", "-d"],
          ["-o"] ++ shlexSplit (out_file.getD "") ++ shlexSplit (in_file.getD ""),
          by simp⟩
      · simp only [Option.some.injEq] at hcmd
        subst hcmd
        rw [shlexSplit_decCmdBase]
        exact ⟨shlexSplit gpg ++ ["--batch", "--no-tty", "--yes", "-d"], [], by simp⟩
    · exact absurd hcmd (by simp)


/-- C2: a call to `launch_gpg` with an invalid request (bad mode; input
file without output file; identical input and output file; neither input
file nor stored inline input) raises the respective descriptive exception,
and its whole event trace is a single diagnostic write: no pipe is created
and no subprocess is spawned. -/
theorem invalid_request_fails_fast (engine : Engine) (fdIn fdOut : Nat) (st : GpgState)
    (mode passphrase : String) (in_file out_file : Option String)
    (binarymode : PyBool) (cipher : String) :
    (mode ≠ "en" ∧ mode ≠ "de" →
      launch_gpg engine fdIn fdOut st mode passphrase in_file out_file binarymode cipher =
        ([.stderrWrite "Improper mode specified! Must be one of en or de.\n"],
         .error "Bad mode chosen")) ∧
    ((mode = "en" ∨ mode = "de") → optTruthy in_file = true → optTruthy out_file = false →
      launch_gpg engine fdIn fdOut st mode passphrase in_file out_file binarymode cipher =
        ([.stderrWrite ("You specified " ++ in_file.getD "" ++
            " as an input file but you didnt specify an output file.\n")],
         .error "Missing out_file")) ∧
    ((mode = "en" ∨ mode = "de") → optTruthy in_file = true → in_file = out_file →
      launch_gpg engine fdIn fdOut st mode passphrase in_file out_file binarymode cipher =
        ([.stderrWrite "Same file for both input and output, eh? Is it going to work? NOPE. Chuck Testa.\n"],
         .error "in_file, out_file must be different")) ∧
    ((mode = "en" ∨ mode = "de") → optTruthy in_file = false → optTruthy st.inputdata = false →
      launch_gpg engine fdIn fdOut st mode passphrase in_file out_file binarymode cipher =
        ([.stderrWrite "You need to save input to class attr inputdata first. Or specify an input file.\n"],
         .error "Missing input")) := by
  refine ⟨?_, ?_, ?_, ?_⟩
  · intro h
    simp only [launch_gpg]
    rw [if_pos h]
  · intro hmode hin hout
    have c1 : ¬(mode ≠ "en" ∧ mode ≠ "de") := by rcases hmode with h | h <;> simp [h]
    simp only [launch_gpg]
    rw [if_neg c1, if_pos ⟨hin, by simp [hout]⟩]
  · intro hmode hin heq
    have c1 : ¬(mode ≠ "en" ∧ mode ≠ "de") := by rcases hmode with h | h <;> simp [h]
    have c2 : ¬(optTruthy in_file = true ∧ ¬(optTruthy out_file = true)) := by
      rintro ⟨_, h2⟩
      exact h2 (by rw [← heq]; exact hin)
    simp only [launch_gpg]
    rw [if_neg c1, if_neg c2, if_pos ⟨hin, heq⟩]
  · intro hmode hin hdata
    have c1 : ¬(mode ≠ "en" ∧ mode ≠ "de") := by rcases hmode with h | h <;> simp [h]
    have c2 : ¬(optTruthy in_file = true ∧ ¬(optTruthy out_file = true)) := by
      rintro ⟨h1, _⟩
      rw [hin] at h1
      exact Bool.false_ne_true h1
    have c3 : ¬(optTruthy in_file = true ∧ in_file = out_file) := by
      rintro ⟨h1, _⟩
      rw [hin] at h1
      exact Bool.false_ne_true h1
    simp only [launch_gpg]
    rw [if_neg c1, if_neg c2, if_neg c3, if_pos ⟨by simp [hin], by simp [hdata]⟩]

/-- Witness for C2: each of the four invalid requests, at concrete
inputs, raises its descriptive exception. -/
theorem invalid_request_fails_fast_witness :
    (launch_gpg (constEngine 0 "o" "e") 3 4 sampleState "xx" "pw" none none
        (PyBool.pyBool false) "aes256").2 = .error "Bad mode chosen" ∧
    (launch_gpg (constEngine 0 "o" "e") 3 4 sampleState "en" "pw" (some "f.txt") none
        (PyBool.pyBool false) "aes256").2 = .error "Missing out_file" ∧
    (launch_gpg (constEngine 0 "o" "e") 3 4 sampleState "en" "pw" (some "f.txt")
        (some "f.txt") (PyBool.pyBool false) "aes256").2 =
      .error "in_file, out_file must be different" ∧
    (launch_gpg (constEngine 0 "o" "e") 3 4
        { sampleState with inputdata := none } "en" "pw" none none
        (PyBool.pyBool false) "aes256").2 = .error "Missing input" := by
  refine ⟨?_, ?_, ?_, ?_⟩
  · rw [(invalid_request_fails_fast (constEngine 0 "o" "e") 3 4 sampleState "xx" "pw"
      none none (PyBool.pyBool false) "aes256").1 (by decide)]
  · rw [(invalid_request_fails_fast (constEngine 0 "o" "e") 3 4 sampleState "en" "pw"
      (some "f.txt") none (PyBool.pyBool false) "aes256").2.1 (Or.inl rfl) (by decide) (by decide)]
  · rw [(invalid_request_fails_fast (constEngine 0 "o" "e") 3 4 sampleState "en" "pw"
      (some "f.txt") (some "f.txt") (PyBool.pyBool false) "aes256").2.2.1 (Or.inl rfl)
      (by decide) rfl]
  · rw [(invalid_request_fails_fast (constEngine 0 "o" "e") 3 4
      { sampleState with inputdata := none } "en" "pw" none none
      (PyBool.pyBool false) "aes256").2.2.2 (Or.inl rfl) (by decide) (by decide)]

/-- C10: with every earlier validation check passing, a `binarymode`
value equal to neither `True` nor `False` raises the `Bad binarymode
chosen` exception, and the whole event trace is a single diagnostic
write: no pipe is created and no subprocess is spawned. -/
theorem binarymode_guard (engine : Engine) (fdIn fdOut : Nat) (st : GpgState)
    (mode passphrase : String) (in_file out_file : Option String) (cipher : String)
    (hmode : mode = "en" ∨ mode = "de")
    (hout : optTruthy in_file = true → optTruthy out_file = true)
    (hneq : optTruthy in_file = true → in_file ≠ out_file)
    (hdata : optTruthy in_file = false → optTruthy st.inputdata = true) :
    launch_gpg engine fdIn fdOut st mode passphrase in_file out_file PyBool.pyOther cipher =
      ([.stderrWrite "Improper binarymode value specified! Must be either True or False (default: False).\n"],
       .error "Bad binarymode chosen") := by
  have c1 : ¬(mode ≠ "en" ∧ mode ≠ "de") := by rcases hmode with h | h <;> simp [h]
  have c2 : ¬(optTruthy in_file = true ∧ ¬(optTruthy out_file = true)) := by
    rintro ⟨h1, h2⟩
    exact h2 (hout h1)
  have c3 : ¬(optTruthy in_file = true ∧ in_file = out_file) := by
    rintro ⟨h1, h2⟩
    exact hneq h1 h2
  have c4 : ¬(¬(optTruthy in_file = true) ∧ ¬(optTruthy st.inputdata = true)) := by
    rintro ⟨h1, h2⟩
    exact h2 (hdata (Bool.not_eq_true _ ▸ h1))
  simp only [launch_gpg]
  rw [if_neg c1, if_neg c2, if_neg c3, if_neg c4]
  simp

/-- Witness for C10: at a concrete otherwise-valid request, a non-boolean
`binarymode` raises `Bad binarymode chosen`. -/
theorem binarymode_guard_witness :
    launch_gpg (constEngine 0 "o" "e") 3 4 sampleState "en" "pw" none none
        PyBool.pyOther "aes256" =
      ([.stderrWrite "Improper binarymode value specified! Must be either True or False (default: False).\n"],
       .error "Bad binarymode chosen") :=
  binarymode_guard (constEngine 0 "o" "e") 3 4 sampleState "en" "pw" none none "aes256"
    (Or.inl rfl) (by decide) (by decide) (by decide)


/-- C3: on every validated call, the returned value is `Except.ok` (never
an exception) carrying exactly the boolean `exit code == 0` of the
spawned engine subprocess. -/
theorem retval_iff_engine_exit_zero (engine : Engine) (fdIn fdOut : Nat) (st : GpgState)
    (mode passphrase : String) (in_file out_file : Option String)
    (binarymode : PyBool) (cipher : String)
    (hv : validRequest st mode in_file out_file binarymode = true) :
    ∃ argv sp st',
      Event.spawn argv sp ∈
        (launch_gpg engine fdIn fdOut st mode passphrase in_file out_file binarymode cipher).1 ∧
      (launch_gpg engine fdIn fdOut st mode passphrase in_file out_file binarymode cipher).2 =
        .ok (st', ((engine argv (stdinData st in_file)).1 == 0)) := by
  obtain ⟨cmd, _, heq⟩ := launch_gpg_shape engine fdIn fdOut st mode passphrase in_file
    out_file binarymode cipher hv
  refine ⟨shlexSplit cmd, !optTruthy in_file,
    { st with stdout := some (engine (shlexSplit cmd) (stdinData st in_file)).2.1,
              stderr := some (engine (shlexSplit cmd) (stdinData st in_file)).2.2 }, ?_, ?_⟩
  · rw [heq]; simp
  · rw [heq]

/-- Witness for C3: a concrete decryption whose engine exits with code 2
returns `ok` with value `false`. -/
theorem retval_iff_engine_exit_zero_witness :
    ∃ argv sp st',
      Event.spawn argv sp ∈
        (launch_gpg (constEngine 2 "o" "e") 3 4 sampleState "de" "pw" none none
          (PyBool.pyBool false) "aes256").1 ∧
      (launch_gpg (constEngine 2 "o" "e") 3 4 sampleState "de" "pw" none none
          (PyBool.pyBool false) "aes256").2 =
        .ok (st', ((constEngine 2 "o" "e") argv (stdinData sampleState none)).1 == 0) :=
  retval_iff_engine_exit_zero (constEngine 2 "o" "e") 3 4 sampleState "de" "pw" none none
    (PyBool.pyBool false) "aes256" (by decide)

/-- C5: on every validated call, whatever the engine exit code, the
result is `ok`, the captured engine stderr is stored in the object state,
and the final event of the call writes exactly that stderr content to the
diagnostic stream. -/
theorem engine_stderr_always_surfaced (engine : Engine) (fdIn fdOut : Nat) (st : GpgState)
    (mode passphrase : String) (in_file out_file : Option String)
    (binarymode : PyBool) (cipher : String)
    (hv : validRequest st mode in_file out_file binarymode = true) :
    ∃ argv sp st' retval,
      Event.spawn argv sp ∈
        (launch_gpg engine fdIn fdOut st mode passphrase in_file out_file binarymode cipher).1 ∧
      (launch_gpg engine fdIn fdOut st mode passphrase in_file out_file binarymode cipher).2 =
        .ok (st', retval) ∧
      st'.stderr = some (engine argv (stdinData st in_file)).2.2 ∧
      (launch_gpg engine fdIn fdOut st mode passphrase in_file out_file binarymode cipher).1.getLast? =
        some (.stderrWrite (engine argv (stdinData st in_file)).2.2) := by
  obtain ⟨cmd, _, heq⟩ := launch_gpg_shape engine fdIn fdOut st mode passphrase in_file
    out_file binarymode cipher hv
  refine ⟨shlexSplit cmd, !optTruthy in_file,
    { st with stdout := some (engine (shlexSplit cmd) (stdinData st in_file)).2.1,
              stderr := some (engine (shlexSplit cmd) (stdinData st in_file)).2.2 },
    (engine (shlexSplit cmd) (stdinData st in_file)).1 == 0, ?_, ?_, ?_, ?_⟩
  · rw [heq]; simp
  · rw [heq]
  · rfl
  · rw [heq]; rfl

/-- Witness for C5: a concrete failing decryption still ends with a
diagnostic-stream write of the engine stderr text. -/
theorem engine_stderr_always_surfaced_witness :
    ∃ argv sp st' retval,
      Event.spawn argv sp ∈
        (launch_gpg (constEngine 2 "o" "decryption failed") 3 4 sampleState "de" "pw"
          none none (PyBool.pyBool false) "aes256").1 ∧
      (launch_gpg (constEngine 2 "o" "decryption failed") 3 4 sampleState "de" "pw"
          none none (PyBool.pyBool false) "aes256").2 = .ok (st', retval) ∧
      st'.stderr = some ((constEngine 2 "o" "decryption failed") argv
        (stdinData sampleState none)).2.2 ∧
      (launch_gpg (constEngine 2 "o" "decryption failed") 3 4 sampleState "de" "pw"
          none none (PyBool.pyBool false) "aes256").1.getLast? =
        some (.stderrWrite ((constEngine 2 "o" "decryption failed") argv
          (stdinData sampleState none)).2.2) :=
  engine_stderr_always_surfaced (constEngine 2 "o" "decryption failed") 3 4 sampleState
    "de" "pw" none none (PyBool.pyBool false) "aes256" (by decide)

/-- C6: on every validated call the event trace is exactly: pipe
creation, passphrase write to the write end, close of the write end,
subprocess spawn, close of the read end, diagnostic write — so the write
end is closed right after the write and before the spawn, the read end is
closed after the subprocess runs and before returning, and both
descriptors of the pipe created in the call are closed inside the call. -/
theorem passphrase_pipe_lifecycle (engine : Engine) (fdIn fdOut : Nat) (st : GpgState)
    (mode passphrase : String) (in_file out_file : Option String)
    (binarymode : PyBool) (cipher : String)
    (hv : validRequest st mode in_file out_file binarymode = true) :
    ∃ argv sp serr,
      (launch_gpg engine fdIn fdOut st mode passphrase in_file out_file binarymode cipher).1 =
        [.pipeCreate fdIn fdOut, .fdWrite fdOut passphrase, .fdClose fdOut,
         .spawn argv sp, .fdClose fdIn, .stderrWrite serr] := by
  obtain ⟨cmd, _, heq⟩ := launch_gpg_shape engine fdIn fdOut st mode passphrase in_file
    out_file binarymode cipher hv
  exact ⟨shlexSplit cmd, !optTruthy in_file,
    (engine (shlexSplit cmd) (stdinData st in_file)).2.2, by rw [heq]⟩

/-- Witness for C6: the trace of a concrete validated call has exactly
the six events in order. -/
theorem passphrase_pipe_lifecycle_witness :
    ∃ argv sp serr,
      (launch_gpg (constEngine 0 "o" "e") 3 4 sampleState "en" "pw" none none
          (PyBool.pyBool false) "aes256").1 =
        [.pipeCreate 3 4, .fdWrite 4 "pw", .fdClose 4,
         .spawn argv sp, .fdClose 3, .stderrWrite serr] :=
  passphrase_pipe_lifecycle (constEngine 0 "o" "e") 3 4 sampleState "en" "pw" none none
    (PyBool.pyBool false) "aes256" (by decide)


theorem launch_gpg_invalid (st : GpgState) (mode : String)
    (in_file out_file : Option String) (binarymode : PyBool) (cipher : String)
    (hv : validRequest st mode in_file out_file binarymode = false) :
    ∃ msg err, ∀ (engine : Engine) (fdIn fdOut : Nat) (passphrase : String),
      launch_gpg engine fdIn fdOut st mode passphrase in_file out_file binarymode cipher =
        ([.stderrWrite msg], .error err) := by
  by_cases c1 : mode ≠ "en" ∧ mode ≠ "de"
  · exact ⟨_, _, fun e fi fo p => by simp only [launch_gpg]; rw [if_pos c1]⟩
  by_cases c2 : optTruthy in_file = true ∧ ¬(optTruthy out_file = true)
  · exact ⟨_, _, fun e fi fo p => by simp only [launch_gpg]; rw [if_neg c1, if_pos c2]⟩
  by_cases c3 : optTruthy in_file = true ∧ in_file = out_file
  · exact ⟨_, _, fun e fi fo p => by
      simp only [launch_gpg]; rw [if_neg c1, if_neg c2, if_pos c3]⟩
  by_cases c4 : ¬(optTruthy in_file = true) ∧ ¬(optTruthy st.inputdata = true)
  · exact ⟨_, _, fun e fi fo p => by
      simp only [launch_gpg]; rw [if_neg c1, if_neg c2, if_neg c3, if_pos c4]⟩
  by_cases c5 : binarymode = PyBool.pyOther
  · exact ⟨_, _, fun e fi fo p => by
      simp only [launch_gpg]; rw [if_neg c1, if_neg c2, if_neg c3, if_neg c4, if_pos c5]⟩
  exfalso
  have hval : validRequest st mode in_file out_file binarymode = true := by
    simp only [validRequest, Bool.and_eq_true, Bool.or_eq_true, beq_iff_eq,
               Bool.not_eq_true']
    push_neg at c1 c2 c3 c4
    refine ⟨⟨⟨⟨?_, ?_⟩, ?_⟩, ?_⟩, ?_⟩
    · by_cases h : mode = "en"
      · exact Or.inl h
      · exact Or.inr (c1 h)
    · cases h1 : optTruthy in_file <;> cases h2 : optTruthy out_file <;> simp_all
    · cases h1 : optTruthy in_file <;> simp_all
    · cases h1 : optTruthy in_file <;> cases h2 : optTruthy st.inputdata <;> simp_all
    · simp [c5]
  rw [hval] at hv
  cases hv

/-- C1: noninterference of the passphrase with the constructed command.
Changing the passphrase changes neither the scrubbed event trace (so in
particular not the spawned argument vector) nor the result; the only fd
write in any trace is the passphrase into the pipe write end; and every
spawned argument vector carries `--passphrase-fd` immediately followed by
the decimal number of the pipe read end. -/
theorem passphrase_confidentiality (engine : Engine) (fdIn fdOut : Nat) (st : GpgState)
    (mode p q : String) (in_file out_file : Option String)
    (binarymode : PyBool) (cipher : String) :
    scrubWrites (launch_gpg engine fdIn fdOut st mode p in_file out_file binarymode cipher).1 =
      scrubWrites (launch_gpg engine fdIn fdOut st mode q in_file out_file binarymode cipher).1 ∧
    (launch_gpg engine fdIn fdOut st mode p in_file out_file binarymode cipher).2 =
      (launch_gpg engine fdIn fdOut st mode q in_file out_file binarymode cipher).2 ∧
    writtenData (launch_gpg engine fdIn fdOut st mode p in_file out_file binarymode cipher).1
      ⊆ [(fdOut, p)] ∧
    (∀ argv sp,
      Event.spawn argv sp ∈
        (launch_gpg engine fdIn fdOut st mode p in_file out_file binarymode cipher).1 →
      ∃ l r, argv = l ++ "--passphrase-fd" :: toString fdIn :: r) := by
  by_cases hv : validRequest st mode in_file out_file binarymode = true
  · obtain ⟨cmd, hcmd, heqp⟩ := launch_gpg_shape engine fdIn fdOut st mode p in_file
      out_file binarymode cipher hv
    obtain ⟨cmd2, hcmd2, heqq⟩ := launch_gpg_shape engine fdIn fdOut st mode q in_file
      out_file binarymode cipher hv
    rw [hcmd] at hcmd2
    obtain rfl : cmd = cmd2 := Option.some.inj hcmd2
    refine ⟨?_, ?_, ?_, ?_⟩
    · rw [heqp, heqq]
      simp [scrubWrites]
    · rw [heqp, heqq]
    · rw [heqp]
      simp [writtenData]
    · intro argv sp hmem
      rw [heqp] at hmem
      simp at hmem
      obtain ⟨l, r, hlr⟩ := buildCmd_argv_fd st.gpg mode in_file out_file binarymode cipher
        fdIn cmd hcmd
      exact ⟨l, r, by rw [hmem.1, hlr]⟩
  · rw [Bool.not_eq_true] at hv
    obtain ⟨msg, err, hall⟩ := launch_gpg_invalid st mode in_file out_file binarymode
      cipher hv
    refine ⟨?_, ?_, ?_, ?_⟩
    · rw [hall engine fdIn fdOut p, hall engine fdIn fdOut q]
    · rw [hall engine fdIn fdOut p, hall engine fdIn fdOut q]
    · rw [hall engine fdIn fdOut p]
      simp [writtenData]
    · intro argv sp hmem
      rw [hall engine fdIn fdOut p] at hmem
      simp at hmem

/-- C4: on every validated call with a found engine binary, a space-free
non-dash cipher name and space-free non-dash file names, exactly one
subprocess is spawned; in encrypt mode its argument vector carries
`--symmetric`, `--force-mdc`, `--cipher-algo` immediately followed by the
requested cipher, and the armor flag `-a` exactly unless an input file is
in use and binary mode was requested together; in decrypt mode it carries
`-d` and never `--cipher-algo` nor `-a`. -/
theorem command_flags_by_mode (engine : Engine) (fdIn fdOut : Nat) (st : GpgState)
    (mode passphrase : String) (in_file out_file : Option String)
    (binarymode : PyBool) (cipher : String)
    (hv : validRequest st mode in_file out_file binarymode = true)
    (hgpg : st.gpg = "gpg --no-use-agent" ∨ st.gpg = "gpg2")
    (hcipher : saneToken cipher = true)
    (hin : ∀ s, in_file = some s → saneToken s = true)
    (hout : ∀ s, out_file = some s → saneToken s = true) :
    ∃ argv sp,
      spawnArgs
        (launch_gpg engine fdIn fdOut st mode passphrase in_file out_file binarymode cipher).1
        = [(argv, sp)] ∧
      (mode = "en" →
        "--symmetric" ∈ argv ∧ "--force-mdc" ∈ argv ∧
        (∃ l r, argv = l ++ "--cipher-algo" :: cipher :: r) ∧
        ("-a" ∈ argv ↔ ¬(optTruthy in_file = true ∧ binarymode.truthy = true))) ∧
      (mode = "de" →
        "-d" ∈ argv ∧ "--cipher-algo" ∉ argv ∧ "-a" ∉ argv) := by
  obtain ⟨cmd, hcmd, heq⟩ := launch_gpg_shape engine fdIn fdOut st mode passphrase in_file
    out_file binarymode cipher hv
  have hsc := saneToken_shlexSplit cipher hcipher
  have hGna : "-a" ∉ shlexSplit st.gpg := by
    rcases hgpg with h | h <;> rw [h] <;> decide
  have hGnc : "--cipher-algo" ∉ shlexSplit st.gpg := by
    rcases hgpg with h | h <;> rw [h] <;> decide
  have hcna : cipher ≠ "-a" := saneToken_ne_flag cipher "-a" hcipher ⟨['a'], rfl⟩
  have hfdna : toString fdIn ≠ "-a" := toString_nat_ne_flag fdIn "-a" (by decide)
  have hfdnc : toString fdIn ≠ "--cipher-algo" :=
    toString_nat_ne_flag fdIn "--cipher-algo" (by decide)
  refine ⟨shlexSplit cmd, !optTruthy in_file, by rw [heq]; simp [spawnArgs], ?_, ?_⟩
  · -- encrypt mode
    intro hmode
    subst hmode
    cases hift : optTruthy in_file with
    | false =>
      simp only [buildCmd, (by decide : pyInStr "en" "en" = true), if_true, hift,
        Bool.false_eq_true, if_false, Option.some.injEq] at hcmd
      subst hcmd
      rw [shlexSplit_encCmdBase, hsc]
      refine ⟨by simp, by simp, ?_, ?_⟩
      · exact ⟨shlexSplit st.gpg ++ ["--batch", "--no-tty", "--yes", "--symmetric",
          "--force-mdc"], ["--passphrase-fd", toString fdIn, "-a"], by simp⟩
      · simp
    | true =>
      obtain ⟨fin, hfin⟩ : ∃ s, in_file = some s := by
        cases hof : in_file
        · rw [hof] at hift; simp [optTruthy] at hift
        · exact ⟨_, rfl⟩
      have hout_t : optTruthy out_file = true := by
        simp only [validRequest, Bool.and_eq_true, Bool.not_eq_true'] at hv
        have h2 := hv.1.1.1.2
        rw [hift, Bool.true_and, Bool.not_eq_false'] at h2
        exact h2
      obtain ⟨fout, hfout⟩ : ∃ s, out_file = some s := by
        cases hof : out_file
        · rw [hof] at hout_t; simp [optTruthy] at hout_t
        · exact ⟨_, rfl⟩
      have hsin := saneToken_shlexSplit fin (hin fin hfin)
      have hsout := saneToken_shlexSplit fout (hout fout hfout)
      have hinna : fin ≠ "-a" := saneToken_ne_flag fin "-a" (hin fin hfin) ⟨['a'], rfl⟩
      have houtna : fout ≠ "-a" := saneToken_ne_flag fout "-a" (hout fout hfout) ⟨['a'], rfl⟩
      have hift2 : optTruthy (some fin) = true := by rw [← hfin]; exact hift
      simp only [buildCmd, (by decide : pyInStr "en" "en" = true), if_true,
        Option.some.injEq, hfin, hfout, hift2, Option.getD_some] at hcmd
      by_cases hbm : binarymode.truthy
      · rw [if_pos hbm] at hcmd
        subst hcmd
        rw [shlexSplit_fileSuffix, shlexSplit_encCmdDrop, hsc, hsin, hsout]
        refine ⟨by simp, by simp, ?_, ?_⟩
        · exact ⟨shlexSplit st.gpg ++ ["--batch", "--no-tty", "--yes", "--symmetric",
            "--force-mdc"],
            ["--passphrase-fd", toString fdIn, "-o", fout, fin], by simp⟩
        · simp [hbm, hGna, hcna.symm, hfdna.symm, houtna.symm, hinna.symm]
      · rw [if_neg hbm] at hcmd
        subst hcmd
        rw [shlexSplit_fileSuffix, shlexSplit_encCmdBase, hsc, hsin, hsout]
        refine ⟨by simp, by simp, ?_, ?_⟩
        · exact ⟨shlexSplit st.gpg ++ ["--batch", "--no-tty", "--yes", "--symmetric",
            "--force-mdc"],
            ["--passphrase-fd", toString fdIn, "-a", "-o", fout, fin], by simp⟩
        · simp [hbm]
  · -- decrypt mode
    intro hmode
    subst hmode
    have hcnc : cipher ≠ "--cipher-algo" :=
      saneToken_ne_flag cipher "--cipher-algo" hcipher ⟨"-cipher-algo".data, rfl⟩
    cases hift : optTruthy in_file with
    | false =>
      simp only [buildCmd, (by decide : pyInStr "de" "en" = false),
        (by decide : pyInStr "de" "de" = true), if_true, if_false, hift,
        Bool.false_eq_true, Option.some.injEq] at hcmd
      subst hcmd
      rw [shlexSplit_decCmdBase]
      refine ⟨by simp, ?_, ?_⟩
      · simp [hGnc, hfdnc.symm]
      · simp [hGna, hfdna.symm]
    | true =>
      obtain ⟨fin, hfin⟩ : ∃ s, in_file = some s := by
        cases hof : in_file
        · rw [hof] at hift; simp [optTruthy] at hift
        · exact ⟨_, rfl⟩
      have hout_t : optTruthy out_file = true := by
        simp only [validRequest, Bool.and_eq_true, Bool.not_eq_true'] at hv
        have h2 := hv.1.1.1.2
        rw [hift, Bool.true_and, Bool.not_eq_false'] at h2
        exact h2
      obtain ⟨fout, hfout⟩ : ∃ s, out_file = some s := by
        cases hof : out_file
        · rw [hof] at hout_t; simp [optTruthy] at hout_t
        · exact ⟨_, rfl⟩
      have hsin := saneToken_shlexSplit fin (hin fin hfin)
      have hsout := saneToken_shlexSplit fout (hout fout hfout)
      have hinna : fin ≠ "-a" := saneToken_ne_flag fin "-a" (hin fin hfin) ⟨['a'], rfl⟩
      have houtna : fout ≠ "-a" := saneToken_ne_flag fout "-a" (hout fout hfout) ⟨['a'], rfl⟩
      have hinnc : fin ≠ "--cipher-algo" :=
        saneToken_ne_flag fin "--cipher-algo" (hin fin hfin) ⟨"-cipher-algo".data, rfl⟩
      have houtnc : fout ≠ "--cipher-algo" :=
        saneToken_ne_flag fout "--cipher-algo" (hout fout hfout) ⟨"-cipher-algo".data, rfl⟩
      have hift2 : optTruthy (some fin) = true := by rw [← hfin]; exact hift
      simp only [buildCmd, (by decide : pyInStr "de" "en" = false),
        (by decide : pyInStr "de" "de" = true), if_true, if_false, Bool.false_eq_true,
        Option.some.injEq, hfin, hfout, hift2, Option.getD_some] at hcmd
      subst hcmd
      rw [shlexSplit_fileSuffix, shlexSplit_decCmdBase, hsin, hsout]
      refine ⟨by simp, ?_, ?_⟩
      · simp [hGnc, hfdnc.symm, houtnc.symm, hinnc.symm]
      · simp [hGna, hfdna.symm, houtna.symm, hinna.symm]


/-- Witness for C1: on a concrete encryption call the spawned argument
vector carries `--passphrase-fd` immediately followed by the pipe read
end number. -/
theorem passphrase_confidentiality_witness :
    ∃ l r, ["gpg", "--no-use-agent", "--batch", "--no-tty", "--yes", "--symmetric",
        "--force-mdc", "--cipher-algo", "aes256", "--passphrase-fd", "3", "-a"] =
      l ++ "--passphrase-fd" :: toString 3 :: r :=
  (passphrase_confidentiality (constEngine 0 "o" "e") 3 4 sampleState "en" "pw" "other"
    none none (PyBool.pyBool false) "aes256").2.2.2
    ["gpg", "--no-use-agent", "--batch", "--no-tty", "--yes", "--symmetric",
     "--force-mdc", "--cipher-algo", "aes256", "--passphrase-fd", "3", "-a"]
    true (by decide)

/-- Witness for C4: a concrete binary-mode file encryption spawns exactly
one subprocess whose argument vector has the required flags and no `-a`. -/
theorem command_flags_by_mode_witness :
    ∃ argv sp,
      spawnArgs (launch_gpg (constEngine 0 "o" "e") 3 4 sampleState "en" "pw"
        (some "in.txt") (some "out.txt") (PyBool.pyBool true) "aes256").1 = [(argv, sp)] ∧
      ("en" = "en" →
        "--symmetric" ∈ argv ∧ "--force-mdc" ∈ argv ∧
        (∃ l r, argv = l ++ "--cipher-algo" :: "aes256" :: r) ∧
        ("-a" ∈ argv ↔
          ¬(optTruthy (some "in.txt") = true ∧ (PyBool.pyBool true).truthy = true))) ∧
      ("en" = "de" →
        "-d" ∈ argv ∧ "--cipher-algo" ∉ argv ∧ "-a" ∉ argv) :=
  command_flags_by_mode (constEngine 0 "o" "e") 3 4 sampleState "en" "pw"
    (some "in.txt") (some "out.txt") (PyBool.pyBool true) "aes256"
    (by decide) (Or.inl rfl) (by decide)
    (fun s hs => by injection hs with h; rw [← h]; decide)
    (fun s hs => by injection hs with h; rw [← h]; decide)

/-- Counterexample for C7: two initializations whose probes differ only
in the reported version text produce identical object states, so the
version text is not recorded for later operations (it is only written to
the diagnostic stream when `show_version` is true). -/
theorem version_text_not_recorded :
    probeGpgA ["gpg", "--version"] ≠ probeGpgB ["gpg", "--version"] ∧
    (GpgInterface.mkInit probeGpgA true).2 = (GpgInterface.mkInit probeGpgB true).2 := by
  constructor
  · decide
  · rfl

/-- C7 (amended): `__init__` probes `gpg --version` first; exactly when
that probe cannot start, it probes `gpg2 --version`; when both fail it
writes a diagnostic and re-raises, constructing no state; when one
succeeds it records which binary was found (the version text itself is
not retained). -/
theorem init_probe_order (probe : Probe) (show_version : Bool) :
    (GpgInterface.mkInit probe show_version).1.head? =
      some (.probeAttempt ["gpg", "--version"]) ∧
    (∀ v, probe ["gpg", "--version"] = some v →
      InitEvent.probeAttempt ["gpg2", "--version"] ∉
        (GpgInterface.mkInit probe show_version).1 ∧
      ∃ st, (GpgInterface.mkInit probe show_version).2 = some st ∧
        st.gpg = "gpg --no-use-agent") ∧
    (probe ["gpg", "--version"] = none →
      InitEvent.probeAttempt ["gpg2", "--version"] ∈
        (GpgInterface.mkInit probe show_version).1 ∧
      (∀ v, probe ["gpg2", "--version"] = some v →
        ∃ st, (GpgInterface.mkInit probe show_version).2 = some st ∧ st.gpg = "gpg2") ∧
      (probe ["gpg2", "--version"] = none →
        (GpgInterface.mkInit probe show_version).2 = none ∧
        InitEvent.stderrWrite
            "This program requires either gpg or gpg2, neither of which were found on your system.\n\n"
          ∈ (GpgInterface.mkInit probe show_version).1)) := by
  rcases h1 : probe ["gpg", "--version"] with _ | v1
  · rcases h2 : probe ["gpg2", "--version"] with _ | v2
    · refine ⟨?_, ?_, ?_⟩ <;>
        simp [GpgInterface.mkInit, h1, h2]
    · refine ⟨?_, ?_, ?_⟩ <;>
        cases show_version <;>
        simp [GpgInterface.mkInit, h1, h2]
  · refine ⟨?_, ?_, ?_⟩ <;>
      cases show_version <;>
      simp [GpgInterface.mkInit, h1]

/-- Witness for C7: with a probe on which only `gpg2` starts, the first
probe fails, the fallback is attempted, and the recorded binary is
`gpg2`. -/
theorem init_probe_order_witness :
    InitEvent.probeAttempt ["gpg2", "--version"] ∈
      (GpgInterface.mkInit probeOnlyGpg2 true).1 ∧
    ∃ st, (GpgInterface.mkInit probeOnlyGpg2 true).2 = some st ∧ st.gpg = "gpg2" := by
  have h := (init_probe_order probeOnlyGpg2 true).2.2 (by decide)
  exact ⟨h.1, h.2.1 "gpg (GnuPG) 2.0.17" (by decide)⟩


/-- C8: whenever `get_passphrase` returns, the returned passphrase is
non-empty; with `confirm=False` it is the first non-empty entry (all
earlier entries were empty re-prompts); with `confirm=True` it was
entered identically at two consecutive prompts. -/
theorem get_passphrase_spec : ∀ (confirm : Bool) (inputs : List String) (p : String),
    get_passphrase confirm inputs = some p →
    p ≠ "" ∧
    (confirm = false →
      ∃ i, inputs.get? i = some p ∧ ∀ j, j < i → inputs.get? j = some "") ∧
    (confirm = true →
      ∃ i, inputs.get? i = some p ∧ inputs.get? (i + 1) = some p)
  | confirm, [], p => by simp [get_passphrase]
  | confirm, x :: rest, p => by
    intro h
    by_cases hx : x = ""
    · subst hx
      rw [get_passphrase.eq_def] at h
      simp only [if_pos rfl] at h
      obtain ⟨h1, h2, h3⟩ := get_passphrase_spec confirm rest p h
      refine ⟨h1, ?_, ?_⟩
      · intro hc
        obtain ⟨i, hi, hj⟩ := h2 hc
        refine ⟨i + 1, by simpa using hi, ?_⟩
        intro j hjlt
        cases j with
        | zero => rfl
        | succ j => simpa using hj j (by omega)
      · intro hc
        obtain ⟨i, hi, hi2⟩ := h3 hc
        exact ⟨i + 1, by simpa using hi, by simpa using hi2⟩
    · rw [get_passphrase.eq_def] at h
      simp only [if_neg hx] at h
      by_cases hc : confirm = false
      · rw [if_pos hc] at h
        obtain rfl : x = p := Option.some.inj h
        refine ⟨hx, ?_, ?_⟩
        · exact fun _ => ⟨0, rfl, fun j hj => absurd hj (by omega)⟩
        · intro hcc
          rw [hcc] at hc
          exact Bool.noConfusion hc
      · rw [if_neg hc] at h
        cases rest with
        | nil => exact Option.noConfusion h
        | cons pwd2 rest2 =>
          by_cases he : x = pwd2
          · simp only [if_pos he] at h
            obtain rfl : x = p := Option.some.inj h
            refine ⟨hx, fun hcf => absurd hcf hc, ?_⟩
            exact fun _ => ⟨0, rfl, by simp [← he]⟩
          · simp only [if_neg he] at h
            obtain ⟨h1, h2, h3⟩ := get_passphrase_spec confirm rest2 p h
            refine ⟨h1, fun hcf => absurd hcf hc, ?_⟩
            intro hct
            obtain ⟨i, hi, hi2⟩ := h3 hct
            exact ⟨i + 2, by simpa using hi, by simpa using hi2⟩

/-- Witness for C8: on entries `["", "a", "b", "c", "c"]` with
confirmation, the returned passphrase `c` is non-empty and was entered
at two consecutive prompts. -/
theorem get_passphrase_spec_witness :
    "c" ≠ "" ∧
    ((true : Bool) = false →
      ∃ i, ["", "a", "b", "c", "c"].get? i = some "c" ∧
        ∀ j, j < i → ["", "a", "b", "c", "c"].get? j = some "") ∧
    ((true : Bool) = true →
      ∃ i, ["", "a", "b", "c", "c"].get? i = some "c" ∧
        ["", "a", "b", "c", "c"].get? (i + 1) = some "c") :=
  get_passphrase_spec true ["", "a", "b", "c", "c"] "c" (by rfl)

theorem takeThroughSentinel_spec (sentinel : String) :
    ∀ (pre post : List String), sentinel ∉ pre →
      takeThroughSentinel sentinel (pre ++ sentinel :: post) = some (pre ++ [sentinel])
  | [], post, _ => by simp [takeThroughSentinel]
  | x :: pre, post, hmem => by
    have hx : x ≠ sentinel := by
      intro h
      exact hmem (by simp [h])
    have ih := takeThroughSentinel_spec sentinel pre post (fun h => hmem (by simp [h]))
    simp [takeThroughSentinel, hx, ih]

/-- C9: when the entered lines are `pre` (sentinel-free) followed by the
sentinel line and anything after it, `get_multiline_input` returns the
lines up to the first sentinel joined with newlines, excluding the
sentinel when `keeplastline` is false and keeping it when true; the shell
collects encryption input with sentinel `;;;` excluded and decryption
input with the PGP end marker kept. -/
theorem get_multiline_input_spec (sentinel : String) (keep : Bool) (pre post : List String)
    (hpre : sentinel ∉ pre) :
    get_multiline_input sentinel keep (pre ++ sentinel :: post) =
      some (String.intercalate "\n" (pre ++ if keep then [sentinel] else [])) ∧
    (";;;" ∉ pre → collectEncryptInput (pre ++ ";;;" :: post) =
      some (String.intercalate "\n" pre)) ∧
    ("-----END PGP MESSAGE-----" ∉ pre →
      collectDecryptInput (pre ++ "-----END PGP MESSAGE-----" :: post) =
        some (String.intercalate "\n" (pre ++ ["-----END PGP MESSAGE-----"]))) := by
  refine ⟨?_, ?_, ?_⟩
  · rw [get_multiline_input, takeThroughSentinel_spec sentinel pre post hpre]
    cases keep <;> simp
  · intro h
    rw [collectEncryptInput, get_multiline_input,
      takeThroughSentinel_spec ";;;" pre post h]
    simp
  · intro h
    rw [collectDecryptInput, get_multiline_input,
      takeThroughSentinel_spec "-----END PGP MESSAGE-----" pre post h]
    simp

/-- Witness for C9: concrete two-line message followed by the sentinel
line. -/
theorem get_multiline_input_spec_witness :
    get_multiline_input ";;;" false (["line one", "line two"] ++ ";;;" :: ["after"]) =
      some (String.intercalate "\n" (["line one", "line two"] ++
        if false then [";;;"] else [])) ∧
    (";;;" ∉ ["line one", "line two"] →
      collectEncryptInput (["line one", "line two"] ++ ";;;" :: ["after"]) =
        some (String.intercalate "\n" ["line one", "line two"])) ∧
    ("-----END PGP MESSAGE-----" ∉ ["line one", "line two"] →
      collectDecryptInput (["line one", "line two"] ++
          "-----END PGP MESSAGE-----" :: ["after"]) =
        some (String.intercalate "\n" (["line one", "line two"] ++
          ["-----END PGP MESSAGE-----"]))) :=
  get_multiline_input_spec ";;;" false ["line one", "line two"] ["after"] (by decide)

end A4crypt
